import Mathlib

/-!
Verification development for the expression-language front end
(`src/src/Lexer/lexer.js` and the parser in `src/unnamed/part_001`,
with the AST node classes of `src/unnamed/part_000` and
`src/src/parser/astNodes/symbolNode.js`).

The lexer and parser are shallowly embedded below.  Strings are `List Char`
with an explicit cursor, mirroring the JavaScript `position` field;
`String.charAt` at an out-of-range index (which yields the empty string in
JavaScript and then matches no recognizer) is modelled as `Option Char`
with `none`.  JavaScript exceptions are modelled by explicit error results,
a JavaScript function that returns an `Error` object *without* throwing is
modelled by a distinct `errVal` result, and a function that falls off its
end (returning `undefined`) by an `undef` result.
-/

/-- `input.charAt(i)` on the underlying character list: `none` models the
empty string JavaScript returns out of range. -/
def charAt (cs : List Char) (i : Nat) : Option Char := cs[i]?

namespace CharUtils

/-- Modelled from the spec: `charUtils.js` is not under `src/`; §4.1 gives the
pure predicates.  A digit is one of the ASCII characters `0`–`9`
(code points 48–57). -/
def isDigit (c : Char) : Bool := 48 ≤ c.toNat && c.toNat ≤ 57

/-- Modelled from the spec (§4.1): ASCII letters. -/
def isLetter (c : Char) : Bool :=
  (65 ≤ c.toNat && c.toNat ≤ 90) || (97 ≤ c.toNat && c.toNat ≤ 122)

/-- Modelled from the spec (§4.1). -/
def isLetterOrUnderscore (c : Char) : Bool := isLetter c || c = '_'

/-- Modelled from the spec (§4.1): whitespace excludes newline. -/
def isWhitespace (c : Char) : Bool := c = ' ' || c = '\t'

/-- Modelled from the spec (§4.1). -/
def isNewLine (c : Char) : Bool := c = '\n'

/-- Modelled from the spec (§4.3): comparison operators start with
`<`, `>` or `=`. -/
def isComparisonOperator (c : Char) : Bool := c = '<' || c = '>' || c = '='

/-- Modelled from the spec (§4.3): arithmetic operators `+ - * / %`. -/
def isArithmeticOperator (c : Char) : Bool :=
  c = '+' || c = '-' || c = '*' || c = '/' || c = '%'

/-- Modelled from the spec (§4.3): boolean-logic operators start with
`!`, `&` or `|`. -/
def isBooleanOperator (c : Char) : Bool := c = '!' || c = '&' || c = '|'

/-- Modelled from the spec (§4.1): union of the operator lead characters. -/
def isOperator (c : Char) : Bool :=
  isComparisonOperator c || isArithmeticOperator c || isBooleanOperator c

/-- Modelled from the spec (§4.3): single-character punctuation
`( ) { } [ ] , ; @`. -/
def isDelimiter (c : Char) : Bool :=
  c = '(' || c = ')' || c = '{' || c = '}' || c = '[' || c = ']' ||
  c = ',' || c = ';' || c = '@'

/-- Modelled from the spec (§4.3): a number-or-dot lexeme starts with a digit
or a `.`. -/
def isValidPartOfNumber (c : Char) : Bool := isDigit c || c = '.'

/-- The source calls `CharUtils.isDigit()` with *no argument* in the exponent
states of `buildNumberRecognizer` (lexer.js lines 357 and 364); in JavaScript
`isDigit(undefined)` compares `undefined` with character literals and is
`false`. -/
def isDigitNoArg : Bool := false

end CharUtils

/-- A token as produced by the lexer.  Modelled from the spec (§3): `token.js`
is not under `src/`; a token carries its type, the lexeme, and the line and
column where it started.  `new Token(TokenType.EndOfInput)` (no further
arguments) is modelled with value `""` and position `0`; no parser code path
distinguishes that value from JavaScript `undefined` (both fail every
comparison the parser makes against non-empty literals). -/
structure Token where
  type : String
  value : String
  line : Nat
  column : Nat
deriving DecidableEq, Repr

namespace TokenType

/-! Modelled from the spec (§3): `tokentype.js` is not under `src/`.  The
parser of `src/unnamed/part_001` compares token types against the literals
`'integer'`, `'decimal'`, `'string'`, `'identifier'`, `'EndOfInput'`,
keyword strings such as `'while'`, operator characters such as `'-'`, and
delimiter characters such as `'('`; the lexer builds keyword tokens with the
keyword itself as the type and delimiter tokens with the delimiter character
as the type.  The only mapping coherent with both sides assigns each token
type its parser-side literal. -/

def Integer : String := "integer"
def Decimal : String := "decimal"
def StringLiteral : String := "string"
def Identifier : String := "identifier"
def EndOfInput : String := "EndOfInput"
def Newline : String := "\n"
def Dot : String := "."
def Plus : String := "+"
def Minus : String := "-"
def Times : String := "*"
def Div : String := "/"
def Modulo : String := "%"
def Assign : String := "="
def Equal : String := "=="
def NotEqual : String := "!="
def Less : String := "<"
def LessOrEqual : String := "<="
def Greater : String := ">"
def GreaterOrEqual : String := ">="
def Not : String := "!"
def And : String := "&&"
def Or : String := "||"

end TokenType

/-! ## The numeric-literal finite state machine -/

/-- Result record of `FSM.run`, destructured by `recognizeNumberOrDot` as
`{ isNumberRecognized, number, state }`. -/
structure FsmResult where
  isNumberRecognized : Bool
  number : List Char
  state : Int
deriving DecidableEq, Repr

/-- The transition function built by `Lexer.buildNumberRecognizer`
(lexer.js lines 287–378), states numbered as in the source:
1 Initial, 2 Integer, 3 BeginNumberWithFractionalPart,
4 NumberWithFractionalPart, 5 BeginNumberWithExponent,
6 BeginNumberWithSignedExponent, 7 NumberWithExponent, −1 NoNextState.
In states 5 and 6 the source tests `CharUtils.isDigit()` with no argument
(`CharUtils.isDigitNoArg`). -/
def numNextState (currentState : Int) (character : Char) : Int :=
  if currentState = 1 then
    if CharUtils.isDigit character then 2
    else if character = '.' then 3
    else -1
  else if currentState = 2 then
    if CharUtils.isDigit character then 2
    else if character = '.' then 3
    else if character.toLower = 'e' then 5
    else -1
  else if currentState = 3 then
    if CharUtils.isDigit character then 4
    else -1
  else if currentState = 4 then
    if CharUtils.isDigit character then 4
    else if character.toLower = 'e' then 5
    else -1
  else if currentState = 5 then
    if character = '+' || character = '-' then 6
    else if CharUtils.isDigitNoArg then 7
    else -1
  else if currentState = 6 then
    if CharUtils.isDigitNoArg then 7
    else -1
  else -1

/-- The accepting states of `buildNumberRecognizer`: Integer,
NumberWithFractionalPart, NumberWithExponent. -/
def numAccepting (s : Int) : Bool := s = 2 || s = 4 || s = 7

/-- Assembles `FSM.run`'s report once the machine stops: the match ending at
the most recent accepting state visited, or, when no accepting state was ever
reached, the consumed prefix and the state the machine stopped in. -/
def fsmFinish (consumed : List Char) (s : Int) :
    Option (List Char × Int) → FsmResult
  | some (p, st) => ⟨true, p, st⟩
  | none => ⟨false, consumed, s⟩

/-- Modelled from the spec: `FSM.js` is not under `src/`; §4.2 specifies
`run` as a greedy prefix matcher that applies `nextState` while a transition
exists, tracks the last accepting state reached together with the prefix
consumed up to it, and rolls back to that accepting boundary when it stops. -/
def fsmRunAux (next : Int → Char → Int) (acc : Int → Bool) :
    Int → List Char → Option (List Char × Int) → List Char → FsmResult
  | s, consumed, best, [] => fsmFinish consumed s best
  | s, consumed, best, c :: rest =>
    let s' := next s c
    if s' = -1 then fsmFinish consumed s best
    else fsmRunAux next acc s' (consumed ++ [c])
      (if acc s' then some (consumed ++ [c], s') else best) rest

/-- `fsm.run(fsmInput)` for the numeric recognizer, from the initial state. -/
def numberFsmRun (input : List Char) : FsmResult :=
  fsmRunAux numNextState numAccepting 1 [] none input

/-! ## The lexer -/

/-- Lexer state, from the constructor of `Lexer` (lexer.js lines 6–12). -/
structure Lexer where
  input : List Char
  position : Nat
  line : Nat
  column : Nat
deriving DecidableEq, Repr

/-- Outcome of one lexer call: a token together with the updated lexer state,
a *returned* `Error` object (`recognizeBooleanOperator` returns `new Error`
without throwing), a thrown exception, or a JavaScript `undefined` return. -/
inductive LexResult where
  | tok (t : Token) (l : Lexer)
  | errVal (msg : String) (l : Lexer)
  | thrown (msg : String)
  | undef (l : Lexer)
deriving DecidableEq, Repr

namespace Lexer

/-- `skipWhitespaces` (lexer.js lines 420–425): advance position and column
past the leading whitespace at the cursor. -/
def skipWhitespaces (l : Lexer) : Lexer :=
  let n := ((l.input.drop l.position).takeWhile CharUtils.isWhitespace).length
  { l with position := l.position + n, column := l.column + n }

/-- `recognizeDelimiter` (lexer.js lines 14–24): the token's type and value
are both the delimiter character itself. -/
def recognizeDelimiter (l : Lexer) : LexResult :=
  match charAt l.input l.position with
  | some c =>
      .tok ⟨String.mk [c], String.mk [c], l.line, l.column⟩
        { l with position := l.position + 1, column := l.column + 1 }
  | none => .undef l

/-- `recognizeComparisonOperator` (lexer.js lines 44–85). -/
def recognizeComparisonOperator (l : Lexer) : LexResult :=
  match charAt l.input l.position with
  | none => .undef l
  | some character =>
    let lookahead := if l.position + 1 < l.input.length
      then charAt l.input (l.position + 1) else none
    let isLookaheadEqualSymbol := lookahead = some '='
    let l' := if isLookaheadEqualSymbol then
        { l with position := l.position + 2, column := l.column + 2 }
      else { l with position := l.position + 1, column := l.column + 1 }
    if character = '>' then
      if isLookaheadEqualSymbol then
        .tok ⟨TokenType.GreaterOrEqual, ">=", l.line, l.column⟩ l'
      else .tok ⟨TokenType.Greater, ">", l.line, l.column⟩ l'
    else if character = '<' then
      if isLookaheadEqualSymbol then
        .tok ⟨TokenType.LessOrEqual, "<=", l.line, l.column⟩ l'
      else .tok ⟨TokenType.Less, "<", l.line, l.column⟩ l'
    else if character = '=' then
      if isLookaheadEqualSymbol then
        .tok ⟨TokenType.Equal, "==", l.line, l.column⟩ l'
      else .tok ⟨TokenType.Assign, "=", l.line, l.column⟩ l'
    else .undef l'

/-- `recognizeBooleanOperator` (lexer.js lines 87–129).  Note the source:
`isLookaheadEqualSymbol` is `lookahead !== null`, i.e. merely *whether a next
character exists*; the cursor advances by 2 whenever one does; the `&` arm
*returns* (does not throw) an `Error` object unless the lookahead is `&`;
and the `|` arm produces an Or token whenever any lookahead exists. -/
def recognizeBooleanOperator (l : Lexer) : LexResult :=
  match charAt l.input l.position with
  | none => .undef l
  | some character =>
    let lookahead := if l.position + 1 < l.input.length
      then charAt l.input (l.position + 1) else none
    let isLookaheadEqualSymbol := lookahead.isSome
    let l' := if isLookaheadEqualSymbol then
        { l with position := l.position + 2, column := l.column + 2 }
      else { l with position := l.position + 1, column := l.column + 1 }
    if character = '!' then
      if isLookaheadEqualSymbol && lookahead = some '=' then
        .tok ⟨TokenType.NotEqual, "!=", l.line, l.column⟩ l'
      else .tok ⟨TokenType.Not, "!", l.line, l.column⟩ l'
    else if character = '&' then
      if isLookaheadEqualSymbol && lookahead = some '&' then
        .tok ⟨TokenType.And, "&&", l.line, l.column⟩ l'
      else .errVal "Unrecognized character" l'
    else if character = '|' then
      if isLookaheadEqualSymbol then
        .tok ⟨TokenType.Or, "||", l.line, l.column⟩ l'
      else .errVal "Unrecognized character" l'
    else .undef l'

/-- `recognizeArithmeticOperator` (lexer.js lines 131–156). -/
def recognizeArithmeticOperator (l : Lexer) : LexResult :=
  match charAt l.input l.position with
  | none => .undef l
  | some character =>
    let l' := { l with position := l.position + 1, column := l.column + 1 }
    if character = '+' then .tok ⟨TokenType.Plus, "+", l.line, l.column⟩ l'
    else if character = '-' then .tok ⟨TokenType.Minus, "-", l.line, l.column⟩ l'
    else if character = '*' then .tok ⟨TokenType.Times, "*", l.line, l.column⟩ l'
    else if character = '/' then .tok ⟨TokenType.Div, "/", l.line, l.column⟩ l'
    else if character = '%' then .tok ⟨TokenType.Modulo, "%", l.line, l.column⟩ l'
    else .undef l'

/-- `recognizeOperator` (lexer.js lines 27–42). -/
def recognizeOperator (l : Lexer) : LexResult :=
  match charAt l.input l.position with
  | none => .undef l
  | some character =>
    if CharUtils.isComparisonOperator character then recognizeComparisonOperator l
    else if CharUtils.isArithmeticOperator character then recognizeArithmeticOperator l
    else if CharUtils.isBooleanOperator character then recognizeBooleanOperator l
    else .undef l

/-- `recognizeNewLine` (lexer.js lines 158–166). -/
def recognizeNewLine (l : Lexer) : LexResult :=
  .tok ⟨TokenType.Newline, "\n", l.line, l.column⟩
    { l with position := l.position + 1, column := 0, line := l.line + 1 }

/-- `recognizeDot` (lexer.js lines 168–175). -/
def recognizeDot (l : Lexer) : LexResult :=
  .tok ⟨TokenType.Dot, ".", l.line, l.column⟩
    { l with position := l.position + 1, column := l.column + 1 }

/-- The keyword table of `recognizeIdentifier` (lexer.js lines 198–220). -/
def keywords : List String :=
  ["class", "else", "extends", "false", "final", "func", "for", "if", "in",
   "let", "new", "null", "override", "private", "return", "super", "to",
   "this", "true", "var", "while"]

/-- `recognizeIdentifier` (lexer.js lines 178–227): greedily consumes
letters, digits, `_`, `-`, `$`; a keyword becomes a token whose type is the
keyword itself, anything else an Identifier token. -/
def recognizeIdentifier (l : Lexer) : LexResult :=
  let identifier := (l.input.drop l.position).takeWhile fun c =>
    CharUtils.isLetter c || CharUtils.isDigit c ||
      c = '_' || c = '-' || c = '$'
  let l' := { l with position := l.position + identifier.length,
                     column := l.column + identifier.length }
  if keywords.contains (String.mk identifier) then
    .tok ⟨String.mk identifier, String.mk identifier, l.line, l.column⟩ l'
  else
    .tok ⟨TokenType.Identifier, String.mk identifier, l.line, l.column⟩ l'

/-- `recognizeNumberOrDot` (lexer.js lines 231–261): run the FSM on the rest
of the input; a recognized match in state 2 is an Integer token and in
state 4 a Decimal token (no other state is mapped); an unrecognized bare `.`
in state 3 is delegated to `recognizeDot`; otherwise the function falls off
its end. -/
def recognizeNumberOrDot (l : Lexer) : LexResult :=
  let r := numberFsmRun (l.input.drop l.position)
  if r.isNumberRecognized then
    let tokenType :=
      if r.state = 2 then TokenType.Integer
      else if r.state = 4 then TokenType.Decimal
      else "undefined"
    .tok ⟨tokenType, String.mk r.number, l.line, l.column⟩
      { l with position := l.position + r.number.length,
               column := l.column + r.number.length }
  else if r.number = ['.'] && r.state = 3 then recognizeDot l
  else .undef l

/-- `recognizeString` (lexer.js lines 263–285): consume from the opening
quote through the next quote inclusive; an unterminated string consumes to
end-of-input without its closing quote. -/
def recognizeString (l : Lexer) : LexResult :=
  let rest := l.input.drop (l.position + 1)
  let body := rest.takeWhile fun c => c ≠ '"'
  let closed := body.length < rest.length
  let str : List Char := '"' :: body ++ (if closed then ['"'] else [])
  .tok ⟨TokenType.StringLiteral, String.mk str, l.line, l.column⟩
    { l with position := l.position + str.length,
             column := l.column + str.length }

/-- `nextToken` (lexer.js lines 381–418): the end-of-input check happens
*before* whitespace is skipped; after skipping, the character at the cursor
(the empty string, modelled `none`, when the cursor is now at the end) is
dispatched, and an unclassifiable character throws. -/
def nextToken (l : Lexer) : LexResult :=
  if l.input.length ≤ l.position then
    .tok ⟨TokenType.EndOfInput, "", 0, 0⟩ l
  else
    let l1 := skipWhitespaces l
    match charAt l1.input l1.position with
    | none => .thrown "Unrecognized character"
    | some character =>
      if CharUtils.isNewLine character then recognizeNewLine l1
      else if CharUtils.isLetterOrUnderscore character then recognizeIdentifier l1
      else if CharUtils.isValidPartOfNumber character then recognizeNumberOrDot l1
      else if CharUtils.isOperator character then recognizeOperator l1
      else if CharUtils.isDelimiter character then recognizeDelimiter l1
      else if character = '"' then recognizeString l1
      else .thrown "Unrecognized character"

end Lexer

/-- One element pushed by `tokenize`: a token, or the `Error` object that
`recognizeBooleanOperator` can return in place of a token. -/
inductive LexItem where
  | t (token : Token)
  | e (msg : String)
deriving DecidableEq, Repr

/-- Result of a `tokenize` run. -/
inductive TokenizeResult where
  | items (l : List LexItem)
  | thrown (msg : String)
  | outOfFuel
deriving DecidableEq, Repr

/-- Prepend an item to a tokenize result. -/
def consItem (x : LexItem) : TokenizeResult → TokenizeResult
  | .items l => .items (x :: l)
  | .thrown m => .thrown m
  | .outOfFuel => .outOfFuel

/-- `tokenize` (lexer.js lines 427–437): pull tokens until `EndOfInput`.
A returned `Error` object has an `undefined` type, which is not
`EndOfInput`, so it is pushed and the loop continues; reading `.type` of an
`undefined` return would throw.  `fuel` bounds the number of iterations. -/
def Lexer.tokenize : Nat → Lexer → TokenizeResult
  | 0, _ => .outOfFuel
  | fuel + 1, l =>
    match l.nextToken with
    | .tok t l' =>
        if t.type = TokenType.EndOfInput then .items []
        else consItem (.t t) (Lexer.tokenize fuel l')
    | .errVal m l' => consItem (.e m) (Lexer.tokenize fuel l')
    | .thrown m => .thrown m
    | .undef _ => .thrown "TypeError"

/-- A fresh lexer over a character list, as built by `new Lexer(input)`. -/
def mkLexer (cs : List Char) : Lexer := ⟨cs, 0, 0, 0⟩

/-- A fresh lexer over a string literal. -/
def mkLexerS (s : String) : Lexer := mkLexer s.data

/-! ## The AST node model

The parser of `src/unnamed/part_001` builds the node classes below.  Child
slots into which the parser can store a JavaScript `undefined` (a parsing
helper that returned no node) have type `Option AstNode`;
`ConditionalNode.falseExpr` also covers its explicit `null` default. -/

inductive AstNode where
  | ConstantNode (value : String) (valueType : String)
  | OperatorNode (name : String) (operator : String)
      (left : Option AstNode) (right : Option AstNode)
  | ConditionalNode (condition : Option AstNode) (trueExpr : Option AstNode)
      (falseExpr : Option AstNode)
  | WhileLoopNode (condition : Option AstNode) (body : Option AstNode)
  | AssignmentNode (target : AstNode) (value : Option AstNode)
      (firstAssignment : Bool)
  | SymbolNode (name : String)
  | BlockNode (blocks : List AstNode)
  | ParenthesisNode (content : Option AstNode)
  | FunctionCallNode (identifier : AstNode) (args : List (Option AstNode))
  | FunctionAssignmentNode (name : String) (args : List String)
      (value : Option AstNode) (firstAssignment : Bool)
  | RelationalNode (conditionals : List String)
      (params : List (Option AstNode))
  | ArrayNode (content : List (Option AstNode))
  | AccessorNode (object : AstNode) (index : Option AstNode)
  | MapNode (keyValuePairs : List (AstNode × AstNode))

namespace AstNode

/-- `isSymbolNode`: `false` on the `AstNode` base class (part_000 lines
8–10), overridden to `true` by `SymbolNode` (symbolNode.js lines 9–11). -/
def isSymbolNode : AstNode → Bool
  | .SymbolNode _ => true
  | _ => false

/-- `node.isFunctionCallNode()`.  The base class of part_000 does *not*
define this method (the parser's TODO list notes "Add all isBlahNode props
to basic Ast node"), so calling it on a node of any other class is a
JavaScript `TypeError`.  Modelled from the spec (§3, §6): the missing
`FunctionCallNode` class defines its own predicate. -/
def isFunctionCallNodeJs : AstNode → Except String Bool
  | .FunctionCallNode _ _ => .ok true
  | _ => .error "TypeError"

/-- `node.isAccessorNode()`, likewise absent from the part_000 base class.
Modelled from the spec (§3, §6): only the missing `AccessorNode` class
(built by the parser's `'@'` accessor arm) defines it. -/
def isAccessorNodeJs : AstNode → Except String Bool
  | .AccessorNode _ _ => .ok true
  | _ => .error "TypeError"

end AstNode

/-! ## The parser

`src/unnamed/part_001`.  The parser keeps a lexer and one buffered
`currentToken`.  Because `Lexer.nextToken` can *return* an `Error` object or
`undefined` instead of a token, the buffer is a `CurTok`: reading `.type` or
`.value` of an `Error` object yields JavaScript `undefined` (modelled
`none`), while reading a field of `undefined` throws a `TypeError`.

All parsing functions (and each `while` loop inside one, which becomes its
own continuation) are mutually recursive through the single dispatcher
`Parser.parseAny`, structurally recursive on a fuel count; every call
consumes one unit of fuel, so a JavaScript infinite loop shows up as
`PRes.outOfFuel` for every fuel value. -/

inductive CurTok where
  | tok (t : Token)
  | errObj
  | undefTok
deriving DecidableEq, Repr

/-- Parser state: `this.lexer` and `this.currentToken`. -/
structure PState where
  lexer : Lexer
  cur : CurTok
deriving DecidableEq, Repr

/-- Result of a parser computation: a value with the updated state, a thrown
error, or fuel exhaustion (the marker that the JavaScript original would
still be running). -/
inductive PRes (α : Type) where
  | ok (a : α) (s : PState)
  | err (msg : String)
  | outOfFuel

/-- State-passing parser computations. -/
def PM (α : Type) := PState → PRes α

instance : Monad PM where
  pure a := fun s => .ok a s
  bind x f := fun s =>
    match x s with
    | .ok a s' => f a s'
    | .err m => .err m
    | .outOfFuel => .outOfFuel

namespace Parser

/-- Throw a JavaScript exception. -/
def perr {α : Type} (m : String) : PM α := fun _ => .err m

/-- Fuel exhausted. -/
def poof {α : Type} : PM α := fun _ => .outOfFuel

/-- Read `this.currentToken.type`. -/
def ctType : PM (Option String) := fun s =>
  match s.cur with
  | .tok t => .ok (some t.type) s
  | .errObj => .ok none s
  | .undefTok => .err "TypeError"

/-- Read `this.currentToken.value`. -/
def ctValue : PM (Option String) := fun s =>
  match s.cur with
  | .tok t => .ok (some t.value) s
  | .errObj => .ok none s
  | .undefTok => .err "TypeError"

/-- `next()` (part_001 lines 52–54): pull the next lexer result into the
one-token buffer. -/
def next : PM Unit := fun s =>
  match s.lexer.nextToken with
  | .tok t l' => .ok () ⟨l', .tok t⟩
  | .errVal _ l' => .ok () ⟨l', .errObj⟩
  | .thrown m => .err m
  | .undef l' => .ok () ⟨l', .undefTok⟩

/-- `expect(tokenType)` (part_001 lines 200–219): compare the current token
type, throw on mismatch, advance on success. -/
def expect (tokenType : String) : PM Unit := do
  let t ← ctType
  if t ≠ some tokenType then perr "Expected token not found"
  else next

/-- The greeting words of `parseAssignment` (part_001 line 117). -/
def greetings : List String := ["hello", "hi", "hola", "aloha"]

/-- The keys of the `operators` table of `parseRelational`
(part_001 lines 88–95). -/
def relOps : List String := ["==", "!=", "<", ">", "<=", ">="]

/-- The `node.args.forEach` validation loop of `parseAssignment`
(part_001 lines 135–141): an argument that is a `SymbolNode` contributes its
name, any other node makes the assignment invalid, and a JavaScript
`undefined` argument throws when its `isSymbolNode` is called. -/
def collectArgs : List (Option AstNode) → Except String (Bool × List String)
  | [] => .ok (true, [])
  | none :: _ => .error "TypeError"
  | some a :: rest => do
    let (valid, names) ← collectArgs rest
    match a with
    | .SymbolNode n => .ok (valid, n :: names)
    | _ => .ok (false, names)

/-- `parseEnd` (part_001 lines 333–340); dead code in the source (its only
call site is commented out), kept for completeness. -/
def parseEnd : PM (Option AstNode) := do
  let v ← ctValue
  if v = some "" then perr "Unexpected end of expression"
  else perr "Value expected"

/-- The tail of `parseRelational` (part_001 lines 104–110): one operand is
returned as is, two become an `OperatorNode`, three or more a
`RelationalNode`. -/
def relationalFinish (params : List (Option AstNode))
    (conditionals : List String) : PM (Option AstNode) :=
  match params, conditionals with
  | [p], _ => pure p
  | [p0, p1], c0 :: _ => pure (some (.OperatorNode c0 c0 p0 p1))
  | ps, cs => pure (some (.RelationalNode cs ps))

/-- The tail of `parseBlock` (part_001 lines 77–80). -/
def blockFinish (blocks : List AstNode) (node : Option AstNode) :
    PM (Option AstNode) :=
  match blocks with
  | [] => pure node
  | _ => pure (some (.BlockNode blocks))

/-- One entry point per parsing function of `src/unnamed/part_001`; the
`…L` variants are the `while` loops inside those functions, carrying the
loop's accumulated state. -/
inductive PCall where
  | block
  | blockLoop (node : Option AstNode) (blocks : List AstNode)
  | assignment
  | assignTail (node : AstNode) (firstAssignment : Bool)
  | whileLoop
  | whileLoopL (node : Option AstNode)
  | conditional
  | conditionalL (node : Option AstNode)
  | relational
  | relationalL (params : List (Option AstNode)) (conditionals : List String)
  | addSub
  | addSubL (node : Option AstNode)
  | mulDiv
  | mulDivL (node : Option AstNode)
  | number
  | parens
  | accessorsL (node : AstNode)
  | argsL (node : AstNode) (params : List (Option AstNode))
  | strLit
  | arrayLit
  | arrayLoop (content : List (Option AstNode))
  | mapLit
  | symbolOrConstant

/-- One step of the parser: a faithful transcription of `src/unnamed/part_001`,
dispatched on `PCall`; `ih` performs every (mutually) recursive call, one
fuel unit further down. -/
def parseStep (ih : PCall → PM (Option AstNode)) : PCall → PM (Option AstNode)
  | c =>
    match c with
    | .block => do
      -- parseBlock, part_001 lines 56–81
      let v ← ctValue
      let node ← if v ≠ some "" ∧ v ≠ some "\n" ∧ v ≠ some ";" then
          ih .assignment
        else pure none
      ih (.blockLoop node [])
    | .blockLoop node blocks => do
      let v ← ctValue
      if v = some "\n" ∨ v = some ";" then do
        let blocks1 := match blocks, node with
          | [], some n => [n]
          | bs, _ => bs
        next
        let t ← ctType
        if t = some "EndOfInput" then blockFinish blocks1 node
        else do
          let v2 ← ctValue
          if v2 ≠ some "" ∧ v2 ≠ some "\n" ∧ v2 ≠ some ";" then do
            let node2 ← ih .assignment
            let blocks2 := match node2 with
              | some n => blocks1 ++ [n]
              | none => blocks1
            ih (.blockLoop node2 blocks2)
          else ih (.blockLoop node blocks1)
      else blockFinish blocks node
    | .assignment => do
      -- parseAssignment, part_001 lines 113–161
      let node? ← ih .whileLoop
      let v ← ctValue
      let firstAssignment ← match v with
        | some x =>
          if greetings.contains x then do next; pure true
          else pure false
        | none => pure false
      let v2 ← ctValue
      if v2 = some "=" then
        match node? with
        | none => perr "TypeError"
        | some node =>
          if node.isSymbolNode then
            match node with
            | .SymbolNode name => do
              next
              let value ← ih .assignment
              pure (some (.AssignmentNode (.SymbolNode name) value
                firstAssignment))
            | _ => perr "unreachable"
          else
            match node.isFunctionCallNodeJs with
            | .error m => perr m
            | .ok _ =>
              match node with
              | .FunctionCallNode identifier args =>
                if identifier.isSymbolNode then
                  match identifier with
                  | .SymbolNode name =>
                    (match collectArgs args with
                     | .error m => perr m
                     | .ok (valid, argNames) =>
                       if valid then do
                         next
                         expect "\x7b"
                         let value ← ih .block
                         expect "\x7d"
                         pure (some (.FunctionAssignmentNode name argNames
                           value firstAssignment))
                       else ih (.assignTail node firstAssignment))
                  | _ => perr "unreachable"
                else ih (.assignTail node firstAssignment)
              | _ => perr "unreachable"
      else pure node?
    | .assignTail node firstAssignment =>
      -- the last `if` and `throw` of parseAssignment, lines 151–157
      match node.isAccessorNodeJs with
      | .error m => perr m
      | .ok b =>
        if b then do
          next
          let value ← ih .assignment
          pure (some (.AssignmentNode node value firstAssignment))
        else perr "Invalid left hand side of assignment operator ="
    | .whileLoop => do
      -- parseWhileLoop, part_001 lines 163–178
      let node ← ih .conditional
      ih (.whileLoopL node)
    | .whileLoopL node => do
      let t ← ctType
      if t = some "while" then do
        next
        expect "("
        let condition ← ih .assignment
        expect ")"
        expect "\x7b"
        let body ← ih .block
        expect "\x7d"
        ih (.whileLoopL (some (.WhileLoopNode condition body)))
      else pure node
    | .conditional => do
      -- parseConditional, part_001 lines 180–198
      let node ← ih .relational
      ih (.conditionalL node)
    | .conditionalL node => do
      let t ← ctType
      if t = some "if" then do
        next
        expect "("
        let condition ← ih .relational
        expect ")"
        let trueExpr ← ih .relational
        let t2 ← ctType
        let falseExpr ← if t2 = some "else" then do
            next
            ih .relational
          else pure none
        ih (.conditionalL (some (.ConditionalNode condition trueExpr
          falseExpr)))
      else pure node
    | .relational => do
      -- parseRelational, part_001 lines 83–111
      let p ← ih .addSub
      ih (.relationalL [p] [])
    | .relationalL params conditionals => do
      let v ← ctValue
      match v with
      | some op =>
        if relOps.contains op then do
          next
          let p ← ih .addSub
          ih (.relationalL (params ++ [p]) (conditionals ++ [op]))
        else relationalFinish params conditionals
      | none => relationalFinish params conditionals
    | .addSub => do
      -- parseAddSubtract, part_001 lines 236–250
      let node ← ih .mulDiv
      ih (.addSubL node)
    | .addSubL node => do
      let t ← ctType
      if t = some "-" ∨ t = some "+" then do
        let v ← ctValue
        match v, t with
        | some name, some operator => do
          next
          let right ← ih .mulDiv
          ih (.addSubL (some (.OperatorNode name operator node right)))
        | _, _ => perr "unreachable"
      else pure node
    | .mulDiv => do
      -- parseMultiplyDivide, part_001 lines 221–234
      let node ← ih .symbolOrConstant
      ih (.mulDivL node)
    | .mulDivL node => do
      let t ← ctType
      if t = some "*" ∨ t = some "/" ∨ t = some "%" then do
        let v ← ctValue
        match v, t with
        | some name, some operator => do
          next
          let right ← ih .symbolOrConstant
          ih (.mulDivL (some (.OperatorNode name operator node right)))
        | _, _ => perr "unreachable"
      else pure node
    | .number => do
      -- parseNumber, part_001 lines 252–259
      let t ← ctType
      if t = some "decimal" ∨ t = some "integer" then do
        let v ← ctValue
        match v, t with
        | some value, some ty => do
          next
          pure (some (.ConstantNode value ty))
        | _, _ => perr "unreachable"
      else ih .parens
    | .parens => do
      -- parseParentheses, part_001 lines 261–281: when the current token is
      -- not `(` the function falls off its end and returns undefined (the
      -- `return this.parseEnd()` call is commented out).
      let v ← ctValue
      if v = some "(" then do
        next
        let node ← ih .assignment
        let v2 ← ctValue
        if v2 ≠ some ")" then perr "Parenthesis expected"
        else do
          next
          ih (.accessorsL (.ParenthesisNode node))
      else pure none
    | .accessorsL node => do
      -- parseAccessors, part_001 lines 283–331
      let v ← ctValue
      if v = some "(" ∨ v = some "@" ∨ v = some "." then
        if v = some "(" then do
          next
          let v2 ← ctValue
          if v2 ≠ some ")" then do
            let p ← ih .assignment
            ih (.argsL node [p])
          else do
            next
            ih (.accessorsL (.FunctionCallNode node []))
        else if v = some "@" then do
          next
          let idx ← ih .symbolOrConstant
          ih (.accessorsL (.AccessorNode node idx))
        else
          -- the `.` arm: the whole body (dot-notation handling) is commented
          -- out in the source (lines 315–327), so the loop re-tests the very
          -- same token with unchanged state.
          ih (.accessorsL node)
      else pure (some node)
    | .argsL node params => do
      -- the argument list of a call, lines 293–306
      let v ← ctValue
      if v = some "," then do
        next
        let p ← ih .assignment
        ih (.argsL node (params ++ [p]))
      else do
        let v2 ← ctValue
        if v2 ≠ some ")" then perr "Parenthesis expected"
        else do
          next
          ih (.accessorsL (.FunctionCallNode node params))
    | .strLit => do
      -- parseString, part_001 lines 342–349
      let t ← ctType
      if t = some "string" then do
        let v ← ctValue
        match v, t with
        | some value, some ty => do
          next
          pure (some (.ConstantNode value ty))
        | _, _ => perr "unreachable"
      else ih .arrayLit
    | .arrayLit => do
      -- parseArray, part_001 lines 351–368
      let t ← ctType
      if t = some "[" then do
        next
        let v ← ctValue
        if v ≠ some "]" then do
          let c0 ← ih .assignment
          ih (.arrayLoop [c0])
        else do
          expect "]"
          pure (some (.ArrayNode []))
      else ih .mapLit
    | .arrayLoop content => do
      let v ← ctValue
      if v = some "," then do
        next
        let c0 ← ih .assignment
        ih (.arrayLoop (content ++ [c0]))
      else do
        expect "]"
        pure (some (.ArrayNode content))
    | .mapLit => do
      -- parseMap, part_001 lines 370–395
      let t ← ctType
      if t = some "\x7b" then do
        next
        let v ← ctValue
        if v ≠ some "\x7d" then do
          let r ← ih .assignment
          match r with
          | none => perr "TypeError"
          | some _ =>
            -- `const { symbol, value } = this.parseAssignment();`
            -- Modelled from the spec: the `AssignmentNode` class file is not
            -- under `src/`, and §3 names its fields target / value, so the
            -- destructured `symbol` is undefined and the
            -- `if (!symbol || !value)` guard throws.
            perr "Syntax error parsing map"
        else do
          expect "\x7d"
          pure (some (.MapNode []))
      else ih .number
    | .symbolOrConstant => do
      -- parseSymbolOrConstant, part_001 lines 397–409
      let t ← ctType
      if t = some "null" ∨ t = some "true" ∨ t = some "false" then do
        let v ← ctValue
        match v, t with
        | some value, some ty => do
          next
          pure (some (.ConstantNode value ty))
        | _, _ => perr "unreachable"
      else if t = some "identifier" then do
        let v ← ctValue
        match v with
        | some name => do
          next
          ih (.accessorsL (.SymbolNode name))
        | none => perr "unreachable"
      else ih .strLit


/-- The parser with a fuel bound, `Nat.rec` over `parseStep` (the explicit
recursor keeps fuel reduction cheap for the definitional computations in the
theorems below). -/
def parseAny (fuel : Nat) : PCall → PM (Option AstNode) :=
  Nat.rec (motive := fun _ => PCall → PM (Option AstNode))
    (fun _ => poof) (fun _ ih => parseStep ih) fuel

end Parser

/-- `new Parser(input)` followed by `parse()` (part_001 lines 18–22 and
46–50): the constructor pulls the first token, then `parse()` runs
`parseBlock`. -/
def runParse (fuel : Nat) (input : String) : PRes (Option AstNode) :=
  match (mkLexerS input).nextToken with
  | .tok t l' => Parser.parseAny fuel .block ⟨l', .tok t⟩
  | .errVal _ l' => Parser.parseAny fuel .block ⟨l', .errObj⟩
  | .thrown m => .err m
  | .undef l' => Parser.parseAny fuel .block ⟨l', .undefTok⟩

/-- The AST root delivered by a parser run, if it returned one. -/
def parsedNode {α : Type} : PRes α → Option α
  | .ok a _ => some a
  | _ => none

/-- The exception message of a parser run, if it threw. -/
def parseErr {α : Type} : PRes α → Option String
  | .err m => some m
  | _ => none

/-! ## Divergence helpers -/

/-- If a parser computation runs out of fuel, so does its sequential
composition with any continuation. -/
lemma pm_bind_oof {α β : Type} (x : PM α) (k : α → PM β) (s : PState)
    (h : x s = .outOfFuel) : (x >>= k) s = .outOfFuel := by
  have hb : (x >>= k) s = match x s with
    | .ok a s' => k a s'
    | .err m => .err m
    | .outOfFuel => .outOfFuel := rfl
  rw [hb, h]

/-- The `parseAccessors` loop never terminates once the current token's value
is `.`: the `.` arm of the loop body is commented out in the source
(part_001 lines 315–327), so the loop re-tests the same token forever and
every fuel bound is exhausted. -/
lemma accessors_dot (n : AstNode) :
    ∀ fuel (s : PState) (t : Token), s.cur = .tok t → t.value = "." →
      Parser.parseAny fuel (.accessorsL n) s = .outOfFuel := by
  intro fuel
  induction fuel with
  | zero => intro s t _ _; rfl
  | succ f ih =>
    intro s t hs hv
    obtain ⟨lex, cur⟩ := s
    obtain ⟨ty, v, ln, co⟩ := t
    simp only at hs
    subst hs
    simp only [Token.mk.injEq] at hv
    subst hv
    exact ih ⟨lex, .tok ⟨ty, ".", ln, co⟩⟩ ⟨ty, ".", ln, co⟩ rfl rfl

/-! ## Claims -/

/-- C1: the claim states that `Parser.parse()` terminates on every input, in
particular that `"a.b"` does not make the parser loop forever.  The code
refutes this: the dot-accessor arm of `parseAccessors` consumes no token, so
parsing `"a.b"` exhausts every fuel bound — the JavaScript original loops
forever. -/
theorem c1_parse_terminates_violated :
    ∀ fuel, runParse fuel "a.b" = .outOfFuel := by
  intro fuel
  rcases Nat.lt_or_ge fuel 8 with hf | hf
  · interval_cases fuel <;> rfl
  · obtain ⟨m, rfl⟩ : ∃ m, fuel = m + 8 := ⟨fuel - 8, by omega⟩
    have h1 : Parser.parseAny (m+1) .symbolOrConstant
        ⟨⟨"a.b".data, 1, 0, 1⟩, .tok ⟨"identifier", "a", 0, 0⟩⟩ = .outOfFuel :=
      accessors_dot (.SymbolNode "a") m
        ⟨⟨"a.b".data, 2, 0, 2⟩, .tok ⟨".", ".", 0, 1⟩⟩ ⟨".", ".", 0, 1⟩ rfl rfl
    have h2 : Parser.parseAny (m+2) .mulDiv
        ⟨⟨"a.b".data, 1, 0, 1⟩, .tok ⟨"identifier", "a", 0, 0⟩⟩ = .outOfFuel :=
      pm_bind_oof (Parser.parseAny (m+1) .symbolOrConstant) _ _ h1
    have h3 : Parser.parseAny (m+3) .addSub
        ⟨⟨"a.b".data, 1, 0, 1⟩, .tok ⟨"identifier", "a", 0, 0⟩⟩ = .outOfFuel :=
      pm_bind_oof (Parser.parseAny (m+2) .mulDiv) _ _ h2
    have h4 : Parser.parseAny (m+4) .relational
        ⟨⟨"a.b".data, 1, 0, 1⟩, .tok ⟨"identifier", "a", 0, 0⟩⟩ = .outOfFuel :=
      pm_bind_oof (Parser.parseAny (m+3) .addSub) _ _ h3
    have h5 : Parser.parseAny (m+5) .conditional
        ⟨⟨"a.b".data, 1, 0, 1⟩, .tok ⟨"identifier", "a", 0, 0⟩⟩ = .outOfFuel :=
      pm_bind_oof (Parser.parseAny (m+4) .relational) _ _ h4
    have h6 : Parser.parseAny (m+6) .whileLoop
        ⟨⟨"a.b".data, 1, 0, 1⟩, .tok ⟨"identifier", "a", 0, 0⟩⟩ = .outOfFuel :=
      pm_bind_oof (Parser.parseAny (m+5) .conditional) _ _ h5
    have h7 : Parser.parseAny (m+7) .assignment
        ⟨⟨"a.b".data, 1, 0, 1⟩, .tok ⟨"identifier", "a", 0, 0⟩⟩ = .outOfFuel :=
      pm_bind_oof (Parser.parseAny (m+6) .whileLoop) _ _ h6
    exact pm_bind_oof (Parser.parseAny (m+7) .assignment) _ _ h7

/-- C4: the claim states that parsing `"node.add(42).push(\"Hello\")"` yields
chained `FunctionCallNode`s.  The code refutes this: the parse reaches the
dot accessor after `node` and loops forever (every fuel bound is exhausted),
because the dot arm of `parseAccessors` is commented out. -/
theorem c4_chained_calls_violated :
    ∀ fuel, runParse fuel "node.add(42).push(\"Hello\")" = .outOfFuel := by
  intro fuel
  rcases Nat.lt_or_ge fuel 8 with hf | hf
  · interval_cases fuel <;> rfl
  · obtain ⟨m, rfl⟩ : ∃ m, fuel = m + 8 := ⟨fuel - 8, by omega⟩
    have h1 : Parser.parseAny (m+1) .symbolOrConstant
        ⟨⟨"node.add(42).push(\"Hello\")".data, 4, 0, 4⟩,
         .tok ⟨"identifier", "node", 0, 0⟩⟩ = .outOfFuel :=
      accessors_dot (.SymbolNode "node") m
        ⟨⟨"node.add(42).push(\"Hello\")".data, 5, 0, 5⟩,
         .tok ⟨".", ".", 0, 4⟩⟩ ⟨".", ".", 0, 4⟩ rfl rfl
    have h2 : Parser.parseAny (m+2) .mulDiv
        ⟨⟨"node.add(42).push(\"Hello\")".data, 4, 0, 4⟩,
         .tok ⟨"identifier", "node", 0, 0⟩⟩ = .outOfFuel :=
      pm_bind_oof (Parser.parseAny (m+1) .symbolOrConstant) _ _ h1
    have h3 : Parser.parseAny (m+3) .addSub
        ⟨⟨"node.add(42).push(\"Hello\")".data, 4, 0, 4⟩,
         .tok ⟨"identifier", "node", 0, 0⟩⟩ = .outOfFuel :=
      pm_bind_oof (Parser.parseAny (m+2) .mulDiv) _ _ h2
    have h4 : Parser.parseAny (m+4) .relational
        ⟨⟨"node.add(42).push(\"Hello\")".data, 4, 0, 4⟩,
         .tok ⟨"identifier", "node", 0, 0⟩⟩ = .outOfFuel :=
      pm_bind_oof (Parser.parseAny (m+3) .addSub) _ _ h3
    have h5 : Parser.parseAny (m+5) .conditional
        ⟨⟨"node.add(42).push(\"Hello\")".data, 4, 0, 4⟩,
         .tok ⟨"identifier", "node", 0, 0⟩⟩ = .outOfFuel :=
      pm_bind_oof (Parser.parseAny (m+4) .relational) _ _ h4
    have h6 : Parser.parseAny (m+6) .whileLoop
        ⟨⟨"node.add(42).push(\"Hello\")".data, 4, 0, 4⟩,
         .tok ⟨"identifier", "node", 0, 0⟩⟩ = .outOfFuel :=
      pm_bind_oof (Parser.parseAny (m+5) .conditional) _ _ h5
    have h7 : Parser.parseAny (m+7) .assignment
        ⟨⟨"node.add(42).push(\"Hello\")".data, 4, 0, 4⟩,
         .tok ⟨"identifier", "node", 0, 0⟩⟩ = .outOfFuel :=
      pm_bind_oof (Parser.parseAny (m+6) .whileLoop) _ _ h6
    exact pm_bind_oof (Parser.parseAny (m+7) .assignment) _ _ h7

/-- C2: the claim states that parsing `"a ="` raises a SyntaxError and never
returns a partially built `AssignmentNode`.  The code refutes this: the
parse *returns* (does not throw) an `AssignmentNode` whose value child is
JavaScript `undefined`, because `parseParentheses` falls off its end at
end-of-input (its `return this.parseEnd()` is commented out). -/
theorem c2_assignment_without_value :
    parsedNode (runParse 100 "a =") =
      some (some (.AssignmentNode (.SymbolNode "a") none false)) := rfl

/-- C7: parsing `"1 + 3 * 5 - 8"` yields the OperatorNode `-` whose left
child is the OperatorNode `+` of the literal `1` and the OperatorNode `*` of
the literals `3` and `5`, and whose right child is the literal `8`:
multiplication binds tighter than addition and the additive operators
associate to the left. -/
theorem c7_precedence_and_associativity :
    parsedNode (runParse 100 "1 + 3 * 5 - 8") =
      some (some (.OperatorNode "-" "-"
        (some (.OperatorNode "+" "+"
          (some (.ConstantNode "1" "integer"))
          (some (.OperatorNode "*" "*"
            (some (.ConstantNode "3" "integer"))
            (some (.ConstantNode "5" "integer"))))))
        (some (.ConstantNode "8" "integer")))) := rfl

/-- C3: the claim states that a `&` not followed by `&`, or a `|` not
followed by `|`, makes the lexer raise a LexError before producing any
token.  The code refutes this on both counts: on `"|1"` the lexer *emits an
Or token* `||` for the lone `|` (the lookahead check only tests that a next
character exists), and on `"&-"` it *returns* an `Error` object as an
ordinary value instead of throwing, which `tokenize` then pushes into the
token list. -/
theorem c3_lone_boolean_operator_not_error :
    Lexer.nextToken (mkLexerS "|1") = .tok ⟨"||", "||", 0, 0⟩ ⟨"|1".data, 2, 0, 2⟩ ∧
    Lexer.nextToken (mkLexerS "&-") =
      .errVal "Unrecognized character" ⟨"&-".data, 2, 0, 2⟩ ∧
    Lexer.tokenize 10 (mkLexerS "&-") =
      .items [.e "Unrecognized character"] := ⟨rfl, rfl, rfl⟩

/-- C6: the claim states that every recognizer advances the cursor by exactly
the consumed lexeme length.  The code refutes this: on `"!a"` (no
whitespace) `recognizeBooleanOperator` returns the one-character token `!`
but advances the cursor by two, swallowing the `a`, because it advances by 2
whenever *any* lookahead character exists. -/
theorem c6_cursor_advancement_violated :
    Lexer.nextToken (mkLexerS "!a") = .tok ⟨"!", "!", 0, 0⟩ ⟨"!a".data, 2, 0, 2⟩ ∧
    Lexer.tokenize 10 (mkLexerS "!a") = .items [.t ⟨"!", "!", 0, 0⟩] :=
  ⟨rfl, rfl⟩

/-- C8: the claim states that exponent literals such as `"1e5"` are lexed as
a single numeric token.  The code refutes this: the exponent transitions of
the number FSM call `CharUtils.isDigit()` with no argument, so the accepting
exponent state is unreachable and `"1e5"` is lexed as the Integer token `1`
followed by the Identifier token `e5`. -/
theorem c8_exponent_literal_violated :
    Lexer.tokenize 10 (mkLexerS "1e5") =
      .items [.t ⟨"integer", "1", 0, 0⟩, .t ⟨"identifier", "e5", 0, 1⟩] := rfl

/-- C9: the claim states that `nextToken` skips whitespace and returns
`EndOfInput` for whitespace-only or trailing-whitespace input.  The code
refutes this: the end-of-input check precedes the whitespace skipping, so on
`" "` (and after the `1` of `"1 "`) the cursor is skipped to the end, the
empty-string character matches no recognizer, and the lexer throws. -/
theorem c9_trailing_whitespace_throws :
    Lexer.nextToken (mkLexerS " ") = .thrown "Unrecognized character" ∧
    Lexer.tokenize 10 (mkLexerS "1 ") = .thrown "Unrecognized character" ∧
    Lexer.nextToken (mkLexerS "") = .tok ⟨"EndOfInput", "", 0, 0⟩ (mkLexerS "") :=
  ⟨rfl, rfl, rfl⟩

/-! ## The `isX()` capability predicates (part_000 and symbolNode.js) -/

namespace AstClass

inductive Obj where
  | astNode
  | symbolNode (name : String)
  | conditionalNode (condition trueExpr falseExpr : Obj)

def isSymbolNode : Obj → Bool
  | .symbolNode _ => true
  | _ => false

def isWhileLoopNode : Obj → Bool
  | _ => false

def isAssignmentNode : Obj → Bool
  | _ => false

def isBlockNode : Obj → Bool
  | _ => false

def isConditionalNode : Obj → Bool
  | .conditionalNode _ _ _ => true
  | _ => false

def isConstantNode : Obj → Bool
  | _ => false

def isFunctionAssignmentNode : Obj → Bool
  | _ => false

def isFunctionNode : Obj → Bool
  | _ => false

def isOperatorNode : Obj → Bool
  | _ => false

def isParenthesisNode : Obj → Bool
  | _ => false

def predicates : List (Obj → Bool) :=
  [isSymbolNode, isWhileLoopNode, isAssignmentNode, isBlockNode,
   isConditionalNode, isConstantNode, isFunctionAssignmentNode,
   isFunctionNode, isOperatorNode, isParenthesisNode]

end AstClass


/-! C5 groundwork -/

lemma digit_not_ws {c : Char} (h : CharUtils.isDigit c = true) :
    CharUtils.isWhitespace c = false := by
  rcases eq_or_ne c ' ' with rfl | h1
  · exact absurd h (by decide)
  rcases eq_or_ne c '\t' with rfl | h2
  · exact absurd h (by decide)
  simp [CharUtils.isWhitespace, h1, h2]

lemma digit_not_newline {c : Char} (h : CharUtils.isDigit c = true) :
    CharUtils.isNewLine c = false := by
  rcases eq_or_ne c '\n' with rfl | h1
  · exact absurd h (by decide)
  simp [CharUtils.isNewLine, h1]

lemma digit_not_letterOrUnderscore {c : Char} (h : CharUtils.isDigit c = true) :
    CharUtils.isLetterOrUnderscore c = false := by
  have hb : 48 ≤ c.toNat ∧ c.toNat ≤ 57 := by
    simpa [CharUtils.isDigit] using h
  rcases eq_or_ne c '_' with rfl | h1
  · exact absurd h (by decide)
  have hl : CharUtils.isLetter c = false := by
    simp [CharUtils.isLetter]
    omega
  simp [CharUtils.isLetterOrUnderscore, hl, h1]

lemma digit_validPart {c : Char} (h : CharUtils.isDigit c = true) :
    CharUtils.isValidPartOfNumber c = true := by
  simp [CharUtils.isValidPartOfNumber, h]

lemma numNextState_one_digit {d : Char} (h : CharUtils.isDigit d = true) :
    numNextState 1 d = 2 := by
  simp [numNextState, h]

lemma numNextState_two_digit {d : Char} (h : CharUtils.isDigit d = true) :
    numNextState 2 d = 2 := by
  simp [numNextState, h]

lemma numNextState_three_digit {d : Char} (h : CharUtils.isDigit d = true) :
    numNextState 3 d = 4 := by
  simp [numNextState, h]

lemma numNextState_four_digit {d : Char} (h : CharUtils.isDigit d = true) :
    numNextState 4 d = 4 := by
  simp [numNextState, h]

lemma numNextState_three_not {c : Char} (h : CharUtils.isDigit c = false) :
    numNextState 3 c = -1 := by
  simp [numNextState, h]

lemma fsm_digits_two (ds : List Char)
    (hds : ∀ c ∈ ds, CharUtils.isDigit c = true) :
    ∀ consumed rest,
      fsmRunAux numNextState numAccepting 2 consumed (some (consumed, 2))
          (ds ++ rest) =
        fsmRunAux numNextState numAccepting 2 (consumed ++ ds)
          (some (consumed ++ ds, 2)) rest := by
  induction ds with
  | nil => intro consumed rest; simp
  | cons d ds ih =>
    intro consumed rest
    have hd : CharUtils.isDigit d = true := hds d (by simp)
    have hds' : ∀ c ∈ ds, CharUtils.isDigit c = true := fun c hc =>
      hds c (by simp [hc])
    have step : fsmRunAux numNextState numAccepting 2 consumed
        (some (consumed, 2)) ((d :: ds) ++ rest) =
        fsmRunAux numNextState numAccepting 2 (consumed ++ [d])
          (some (consumed ++ [d], 2)) (ds ++ rest) := by
      show fsmRunAux numNextState numAccepting 2 consumed
        (some (consumed, 2)) (d :: (ds ++ rest)) = _
      simp [fsmRunAux, numNextState_two_digit hd, numAccepting]
    rw [step, ih hds' (consumed ++ [d]) rest]
    simp

lemma fsm_digits_four (ds : List Char)
    (hds : ∀ c ∈ ds, CharUtils.isDigit c = true) :
    ∀ consumed rest,
      fsmRunAux numNextState numAccepting 4 consumed (some (consumed, 4))
          (ds ++ rest) =
        fsmRunAux numNextState numAccepting 4 (consumed ++ ds)
          (some (consumed ++ ds, 4)) rest := by
  induction ds with
  | nil => intro consumed rest; simp
  | cons d ds ih =>
    intro consumed rest
    have hd : CharUtils.isDigit d = true := hds d (by simp)
    have hds' : ∀ c ∈ ds, CharUtils.isDigit c = true := fun c hc =>
      hds c (by simp [hc])
    have step : fsmRunAux numNextState numAccepting 4 consumed
        (some (consumed, 4)) ((d :: ds) ++ rest) =
        fsmRunAux numNextState numAccepting 4 (consumed ++ [d])
          (some (consumed ++ [d], 4)) (ds ++ rest) := by
      show fsmRunAux numNextState numAccepting 4 consumed
        (some (consumed, 4)) (d :: (ds ++ rest)) = _
      simp [fsmRunAux, numNextState_four_digit hd, numAccepting]
    rw [step, ih hds' (consumed ++ [d]) rest]
    simp

lemma fsm_int_dot (d : Char) (ds rest : List Char)
    (hd : CharUtils.isDigit d = true)
    (hds : ∀ c ∈ ds, CharUtils.isDigit c = true)
    (hrest : ∀ r rs, rest = r :: rs → CharUtils.isDigit r = false) :
    numberFsmRun ((d :: ds) ++ '.' :: rest) = ⟨true, d :: ds, 2⟩ := by
  unfold numberFsmRun
  have step1 : fsmRunAux numNextState numAccepting 1 [] none
      ((d :: ds) ++ '.' :: rest) =
      fsmRunAux numNextState numAccepting 2 [d] (some ([d], 2))
        (ds ++ '.' :: rest) := by
    show fsmRunAux numNextState numAccepting 1 [] none
      (d :: (ds ++ '.' :: rest)) = _
    simp [fsmRunAux, numNextState_one_digit hd, numAccepting]
  rw [step1, fsm_digits_two ds hds [d] ('.' :: rest)]
  have step2 : fsmRunAux numNextState numAccepting 2 ([d] ++ ds)
      (some ([d] ++ ds, 2)) ('.' :: rest) =
      fsmRunAux numNextState numAccepting 3 (([d] ++ ds) ++ ['.'])
        (some ([d] ++ ds, 2)) rest := by
    have h23 : numNextState 2 '.' = 3 := rfl
    simp [fsmRunAux, h23, numAccepting]
  rw [step2]
  cases rest with
  | nil => simp [fsmRunAux, fsmFinish]
  | cons r rs =>
    have hr := hrest r rs rfl
    simp [fsmRunAux, numNextState_three_not hr, fsmFinish]

lemma fsm_dot_alone (rest : List Char)
    (hrest : ∀ r rs, rest = r :: rs → CharUtils.isDigit r = false) :
    numberFsmRun ('.' :: rest) = ⟨false, ['.'], 3⟩ := by
  unfold numberFsmRun
  have h13 : numNextState 1 '.' = 3 := rfl
  cases rest with
  | nil => simp [fsmRunAux, h13, numAccepting, fsmFinish]
  | cons r rs =>
    have hr := hrest r rs rfl
    simp [fsmRunAux, h13, numAccepting, numNextState_three_not hr, fsmFinish]

lemma fsm_decimal (d e : Char) (ds es : List Char)
    (hd : CharUtils.isDigit d = true)
    (hds : ∀ c ∈ ds, CharUtils.isDigit c = true)
    (he : CharUtils.isDigit e = true)
    (hes : ∀ c ∈ es, CharUtils.isDigit c = true) :
    numberFsmRun ((d :: ds) ++ '.' :: e :: es) =
      ⟨true, (d :: ds) ++ '.' :: e :: es, 4⟩ := by
  unfold numberFsmRun
  have step1 : fsmRunAux numNextState numAccepting 1 [] none
      ((d :: ds) ++ '.' :: e :: es) =
      fsmRunAux numNextState numAccepting 2 [d] (some ([d], 2))
        (ds ++ '.' :: e :: es) := by
    show fsmRunAux numNextState numAccepting 1 [] none
      (d :: (ds ++ '.' :: e :: es)) = _
    simp [fsmRunAux, numNextState_one_digit hd, numAccepting]
  rw [step1, fsm_digits_two ds hds [d] ('.' :: e :: es)]
  have step2 : fsmRunAux numNextState numAccepting 2 ([d] ++ ds)
      (some ([d] ++ ds, 2)) ('.' :: e :: es) =
      fsmRunAux numNextState numAccepting 3 (([d] ++ ds) ++ ['.'])
        (some ([d] ++ ds, 2)) (e :: es) := by
    have h23 : numNextState 2 '.' = 3 := rfl
    simp [fsmRunAux, h23, numAccepting]
  rw [step2]
  have step3 : fsmRunAux numNextState numAccepting 3 (([d] ++ ds) ++ ['.'])
      (some ([d] ++ ds, 2)) (e :: es) =
      fsmRunAux numNextState numAccepting 4 ((([d] ++ ds) ++ ['.']) ++ [e])
        (some ((([d] ++ ds) ++ ['.']) ++ [e], 4)) es := by
    simp [fsmRunAux, numNextState_three_digit he, numAccepting]
  rw [step3]
  have step4 := fsm_digits_four es hes ((([d] ++ ds) ++ ['.']) ++ [e]) []
  rw [List.append_nil] at step4
  rw [step4]
  simp [fsmRunAux, fsmFinish]


lemma charAt_of_drop {cs : List Char} {pos : Nat} {d : Char} {tail : List Char}
    (h : cs.drop pos = d :: tail) : charAt cs pos = some d := by
  rw [charAt, ← Nat.add_zero pos, ← List.getElem?_drop, h]
  simp

lemma nextToken_int_dot_first (d : Char) (ds rest : List Char)
    (hd : CharUtils.isDigit d = true)
    (hds : ∀ c ∈ ds, CharUtils.isDigit c = true)
    (hrest : ∀ r rs, rest = r :: rs → CharUtils.isDigit r = false) :
    Lexer.nextToken (mkLexer ((d :: ds) ++ '.' :: rest)) =
      .tok ⟨"integer", String.mk (d :: ds), 0, 0⟩
        ⟨(d :: ds) ++ '.' :: rest, ds.length + 1, 0, ds.length + 1⟩ := by
  have hfsm : numberFsmRun (d :: (ds ++ '.' :: rest)) = ⟨true, d :: ds, 2⟩ := by
    have h0 := fsm_int_dot d ds rest hd hds hrest
    simpa using h0
  simp [Lexer.nextToken, Lexer.skipWhitespaces, charAt, mkLexer,
    digit_not_ws hd, digit_not_newline hd, digit_not_letterOrUnderscore hd,
    digit_validPart hd, Lexer.recognizeNumberOrDot, hfsm, TokenType.Integer]

lemma nextToken_dot_second (d : Char) (ds rest : List Char)
    (hrest : ∀ r rs, rest = r :: rs → CharUtils.isDigit r = false) :
    Lexer.nextToken ⟨(d :: ds) ++ '.' :: rest, ds.length + 1, 0, ds.length + 1⟩ =
      .tok ⟨".", ".", 0, ds.length + 1⟩
        ⟨(d :: ds) ++ '.' :: rest, ds.length + 2, 0, ds.length + 2⟩ := by
  have hdrop : ((d :: ds) ++ '.' :: rest).drop (ds.length + 1) = '.' :: rest := by
    have : (d :: ds).length = ds.length + 1 := by simp
    rw [← this, List.drop_left]
  have hat : charAt (d :: (ds ++ '.' :: rest)) (ds.length + 1) = some '.' := by
    have h0 := charAt_of_drop hdrop
    simpa using h0
  have hlen : ¬((d :: ds) ++ '.' :: rest).length ≤ ds.length + 1 := by
    simp
  have hfsm : numberFsmRun ('.' :: rest) = ⟨false, ['.'], 3⟩ :=
    fsm_dot_alone rest hrest
  have hws : CharUtils.isWhitespace '.' = false := rfl
  have h1 : CharUtils.isNewLine '.' = false := rfl
  have h2 : CharUtils.isLetterOrUnderscore '.' = false := rfl
  have h3 : CharUtils.isValidPartOfNumber '.' = true := rfl
  simp [Lexer.nextToken, hlen, Lexer.skipWhitespaces, hdrop, hat, hws,
    List.takeWhile_cons, h1, h2, h3,
    Lexer.recognizeNumberOrDot, hfsm, Lexer.recognizeDot, TokenType.Dot]

lemma tokenize_decimal (d e : Char) (ds es : List Char)
    (hd : CharUtils.isDigit d = true)
    (hds : ∀ c ∈ ds, CharUtils.isDigit c = true)
    (he : CharUtils.isDigit e = true)
    (hes : ∀ c ∈ es, CharUtils.isDigit c = true) :
    Lexer.tokenize 2 (mkLexer ((d :: ds) ++ '.' :: e :: es)) =
      .items [.t ⟨"decimal", String.mk ((d :: ds) ++ '.' :: e :: es), 0, 0⟩] := by
  have hfsm : numberFsmRun (d :: (ds ++ '.' :: e :: es)) =
      ⟨true, d :: (ds ++ '.' :: e :: es), 4⟩ := by
    have h0 := fsm_decimal d e ds es hd hds he hes
    simpa using h0
  have hfirst : Lexer.nextToken (mkLexer ((d :: ds) ++ '.' :: e :: es)) =
      .tok ⟨"decimal", String.mk (d :: (ds ++ '.' :: e :: es)), 0, 0⟩
        ⟨d :: (ds ++ '.' :: e :: es), (d :: (ds ++ '.' :: e :: es)).length, 0,
         (d :: (ds ++ '.' :: e :: es)).length⟩ := by
    simp [Lexer.nextToken, Lexer.skipWhitespaces, charAt, mkLexer,
      digit_not_ws hd, digit_not_newline hd, digit_not_letterOrUnderscore hd,
      digit_validPart hd, Lexer.recognizeNumberOrDot, hfsm, TokenType.Decimal]
  have hsecond : Lexer.nextToken
      ⟨d :: (ds ++ '.' :: e :: es), (d :: (ds ++ '.' :: e :: es)).length, 0,
       (d :: (ds ++ '.' :: e :: es)).length⟩ =
      .tok ⟨"EndOfInput", "", 0, 0⟩
        ⟨d :: (ds ++ '.' :: e :: es), (d :: (ds ++ '.' :: e :: es)).length, 0,
         (d :: (ds ++ '.' :: e :: es)).length⟩ := by
    simp [Lexer.nextToken, TokenType.EndOfInput]
  rw [show (2 : Nat) = 1 + 1 from rfl, Lexer.tokenize]
  rw [hfirst]
  simp only [TokenType.EndOfInput]
  rw [if_neg (by decide)]
  rw [Lexer.tokenize, hsecond]
  simp [consItem, TokenType.EndOfInput]

/-- C5: for every digit sequence `d :: ds` followed by a `.` with no digit
after it, the lexer yields an Integer token for the digits and then a
separate Dot token for the `.` (never a Decimal token); and for every input
that is exactly `d+.d+`, `tokenize` yields exactly one Decimal token
covering the whole literal. -/
theorem c5_integer_dot_decimal_tokens
    (d e : Char) (ds es rest : List Char)
    (hd : CharUtils.isDigit d = true)
    (hds : ∀ c ∈ ds, CharUtils.isDigit c = true)
    (hrest : ∀ r rs, rest = r :: rs → CharUtils.isDigit r = false)
    (he : CharUtils.isDigit e = true)
    (hes : ∀ c ∈ es, CharUtils.isDigit c = true) :
    (Lexer.nextToken (mkLexer ((d :: ds) ++ '.' :: rest)) =
      .tok ⟨"integer", String.mk (d :: ds), 0, 0⟩
        ⟨(d :: ds) ++ '.' :: rest, ds.length + 1, 0, ds.length + 1⟩) ∧
    (Lexer.nextToken ⟨(d :: ds) ++ '.' :: rest, ds.length + 1, 0, ds.length + 1⟩ =
      .tok ⟨".", ".", 0, ds.length + 1⟩
        ⟨(d :: ds) ++ '.' :: rest, ds.length + 2, 0, ds.length + 2⟩) ∧
    (Lexer.tokenize 2 (mkLexer ((d :: ds) ++ '.' :: e :: es)) =
      .items [.t ⟨"decimal", String.mk ((d :: ds) ++ '.' :: e :: es), 0, 0⟩]) :=
  ⟨nextToken_int_dot_first d ds rest hd hds hrest,
   nextToken_dot_second d ds rest hrest,
   tokenize_decimal d e ds es hd hds he hes⟩

/-- Witness for C5 at the concrete inputs `"5."` and `"5.7"`. -/
theorem c5_integer_dot_decimal_tokens_witness :
    (Lexer.nextToken (mkLexer ['5', '.']) =
      .tok ⟨"integer", String.mk ['5'], 0, 0⟩ ⟨['5', '.'], 1, 0, 1⟩) ∧
    (Lexer.nextToken ⟨['5', '.'], 1, 0, 1⟩ =
      .tok ⟨".", ".", 0, 1⟩ ⟨['5', '.'], 2, 0, 2⟩) ∧
    (Lexer.tokenize 2 (mkLexer ['5', '.', '7']) =
      .items [.t ⟨"decimal", String.mk ['5', '.', '7'], 0, 0⟩]) :=
  c5_integer_dot_decimal_tokens '5' '7' [] [] []
    (by decide) (by simp) (by intro r rs h; simp at h) (by decide) (by simp)

/-- C10: on the node classes present in the source — the `AstNode` base
class of part_000 with its ten `isX()` predicates, `SymbolNode`
(symbolNode.js) and `ConditionalNode` (part_000) — the predicates are sound
and mutually exclusive: the base class answers `false` to every predicate,
a `SymbolNode` answers `true` exactly to `isSymbolNode`, and a
`ConditionalNode` exactly to `isConditionalNode` (one predicate per node). -/
theorem c10_predicate_dispatch :
    (AstClass.predicates.all fun p => !(p .astNode)) = true ∧
    (∀ name, AstClass.isSymbolNode (.symbolNode name) = true ∧
      (AstClass.predicates.filter fun p => p (.symbolNode name)).length = 1) ∧
    (∀ c t e, AstClass.isConditionalNode (.conditionalNode c t e) = true ∧
      (AstClass.predicates.filter fun p => p (.conditionalNode c t e)).length = 1) :=
  ⟨rfl, fun _ => ⟨rfl, rfl⟩, fun _ _ _ => ⟨rfl, rfl⟩⟩
